import Mathlib

/-!
# yati result codes and install policy

A verification development over `sphaira/include/yati/yati.hpp`: the result
code enumeration of module 506, the `Config` and `ConfigOverride` records, and
the parts of the installer that the header documents but does not define.
-/

namespace sphaira.yati

/-! ## Result codes -/

/-- The `Result` type of the platform: an unsigned 32-bit code, kept as a natural number. -/
abbrev Result := Nat

/-- Module number of every yati result code (`enum { YatiModule = 506 }`). -/
def YatiModule : Nat := 506

/-- Modelled from the spec: the `MAKERESULT(module, description)` macro of the platform
library, which the header uses and does not define. It packs the low 9 bits of the module
and the low 13 bits of the description: `(module & 0x1FF) | ((description & 0x1FFF) << 9)`. -/
def MAKERESULT (module description : Nat) : Result :=
  (module &&& 0x1FF) ||| ((description &&& 0x1FFF) <<< 9)

/-- The enumerators of the anonymous `enum : Result` of the header, in declaration order. -/
inductive ResultName where
  | Result_ContainerNotFound
  | Result_Cancelled
  | Result_NcaNotFound
  | Result_InvalidNcaReadSize
  | Result_InvalidNcaSigKeyGen
  | Result_InvalidNcaMagic
  | Result_InvalidNcaSignature0
  | Result_InvalidNcaSignature1
  | Result_InvalidNcaSha256
  | Result_NczSectionNotFound
  | Result_InvalidNczSectionCount
  | Result_NczBlockNotFound
  | Result_InvalidNczBlockVersion
  | Result_InvalidNczBlockType
  | Result_InvalidNczBlockTotal
  | Result_InvalidNczBlockSizeExponent
  | Result_InvalidNczZstdError
  | Result_TicketNotFound
  | Result_InvalidTicketBadRightsId
  | Result_InvalidTicketVersion
  | Result_InvalidTicketKeyType
  | Result_InvalidTicketKeyRevision
  | Result_CertNotFound
  | Result_NcmDbCorruptHeader
  | Result_NcmDbCorruptInfos
  deriving DecidableEq, Repr, Fintype

open ResultName

/-- The description number each enumerator passes to `MAKERESULT`. -/
def ResultName.description : ResultName → Nat
  | Result_ContainerNotFound => 10
  | Result_Cancelled => 11
  | Result_NcaNotFound => 30
  | Result_InvalidNcaReadSize => 31
  | Result_InvalidNcaSigKeyGen => 32
  | Result_InvalidNcaMagic => 33
  | Result_InvalidNcaSignature0 => 34
  | Result_InvalidNcaSignature1 => 35
  | Result_InvalidNcaSha256 => 36
  | Result_NczSectionNotFound => 50
  | Result_InvalidNczSectionCount => 51
  | Result_NczBlockNotFound => 52
  | Result_InvalidNczBlockVersion => 53
  | Result_InvalidNczBlockType => 54
  | Result_InvalidNczBlockTotal => 55
  | Result_InvalidNczBlockSizeExponent => 56
  | Result_InvalidNczZstdError => 57
  | Result_TicketNotFound => 70
  | Result_InvalidTicketBadRightsId => 71
  | Result_InvalidTicketVersion => 72
  | Result_InvalidTicketKeyType => 73
  | Result_InvalidTicketKeyRevision => 74
  | Result_CertNotFound => 90
  | Result_NcmDbCorruptHeader => 110
  | Result_NcmDbCorruptInfos => 111

/-- The numeric value of an enumerator: `MAKERESULT(YatiModule, description)`. -/
def ResultName.value (r : ResultName) : Result :=
  MAKERESULT YatiModule r.description

/-- Every enumerator of the header, in the order the header declares them. -/
def declared : List ResultName :=
  [ Result_ContainerNotFound, Result_Cancelled,
    Result_NcaNotFound, Result_InvalidNcaReadSize, Result_InvalidNcaSigKeyGen,
    Result_InvalidNcaMagic, Result_InvalidNcaSignature0, Result_InvalidNcaSignature1,
    Result_InvalidNcaSha256,
    Result_NczSectionNotFound, Result_InvalidNczSectionCount, Result_NczBlockNotFound,
    Result_InvalidNczBlockVersion, Result_InvalidNczBlockType, Result_InvalidNczBlockTotal,
    Result_InvalidNczBlockSizeExponent, Result_InvalidNczZstdError,
    Result_TicketNotFound, Result_InvalidTicketBadRightsId, Result_InvalidTicketVersion,
    Result_InvalidTicketKeyType, Result_InvalidTicketKeyRevision,
    Result_CertNotFound,
    Result_NcmDbCorruptHeader, Result_NcmDbCorruptInfos ]

/-- The six concerns the header separates its enumerators into (one block of the
enumeration each, set apart by blank lines and named by the enumerator stem). -/
inductive Group where
  | container
  | archive
  | compressed
  | ticket
  | certificate
  | database
  deriving DecidableEq, Repr, Fintype

/-- The block of the enumeration an enumerator is declared in. -/
def ResultName.group : ResultName → Group
  | Result_ContainerNotFound => .container
  | Result_Cancelled => .container
  | Result_NcaNotFound => .archive
  | Result_InvalidNcaReadSize => .archive
  | Result_InvalidNcaSigKeyGen => .archive
  | Result_InvalidNcaMagic => .archive
  | Result_InvalidNcaSignature0 => .archive
  | Result_InvalidNcaSignature1 => .archive
  | Result_InvalidNcaSha256 => .archive
  | Result_NczSectionNotFound => .compressed
  | Result_InvalidNczSectionCount => .compressed
  | Result_NczBlockNotFound => .compressed
  | Result_InvalidNczBlockVersion => .compressed
  | Result_InvalidNczBlockType => .compressed
  | Result_InvalidNczBlockTotal => .compressed
  | Result_InvalidNczBlockSizeExponent => .compressed
  | Result_InvalidNczZstdError => .compressed
  | Result_TicketNotFound => .ticket
  | Result_InvalidTicketBadRightsId => .ticket
  | Result_InvalidTicketVersion => .ticket
  | Result_InvalidTicketKeyType => .ticket
  | Result_InvalidTicketKeyRevision => .ticket
  | Result_CertNotFound => .certificate
  | Result_NcmDbCorruptHeader => .database
  | Result_NcmDbCorruptInfos => .database

/-- Position of a group in the order of the header. -/
def Group.index : Group → Nat
  | .container => 0
  | .archive => 1
  | .compressed => 2
  | .ticket => 3
  | .certificate => 4
  | .database => 5

/-- First description number of a group: 10, 30, 50, 70, 90, 110. -/
def Group.base (g : Group) : Nat := 10 + 20 * g.index

/-- The enumerators declared in one group, in declaration order. -/
def codesOf (g : Group) : List ResultName :=
  declared.filter (fun r => decide (r.group = g))

/-- Spec-side enumeration of error kinds, following the words of the specification:
container resolution (not-found, cancelled), archive structural errors (not-found, bad
read size, bad signature key generation, bad magic, two signature-mismatch kinds, hash
mismatch), compressed-block errors (section/block not found, bad
version/type/total/exponent, decompression failure), ticket errors (not found, rights-ID
mismatch, bad version/key-type/key-revision), certificate-not-found, and title-database
corruption (header, infos). -/
inductive SpecKind where
  | container_not_found
  | container_cancelled
  | archive_not_found
  | archive_bad_read_size
  | archive_bad_signature_key_generation
  | archive_bad_magic
  | archive_signature0_mismatch
  | archive_signature1_mismatch
  | archive_hash_mismatch
  | block_section_not_found
  | block_not_found
  | block_bad_version
  | block_bad_type
  | block_bad_total
  | block_bad_exponent
  | block_decompression_failure
  | ticket_not_found
  | ticket_rights_id_mismatch
  | ticket_bad_version
  | ticket_bad_key_type
  | ticket_bad_key_revision
  | certificate_not_found
  | database_corrupt_header
  | database_corrupt_infos
  deriving DecidableEq, Repr, Fintype

/-- The concern under which the specification lists an error kind. -/
def SpecKind.group : SpecKind → Group
  | .container_not_found => .container
  | .container_cancelled => .container
  | .archive_not_found => .archive
  | .archive_bad_read_size => .archive
  | .archive_bad_signature_key_generation => .archive
  | .archive_bad_magic => .archive
  | .archive_signature0_mismatch => .archive
  | .archive_signature1_mismatch => .archive
  | .archive_hash_mismatch => .archive
  | .block_section_not_found => .compressed
  | .block_not_found => .compressed
  | .block_bad_version => .compressed
  | .block_bad_type => .compressed
  | .block_bad_total => .compressed
  | .block_bad_exponent => .compressed
  | .block_decompression_failure => .compressed
  | .ticket_not_found => .ticket
  | .ticket_rights_id_mismatch => .ticket
  | .ticket_bad_version => .ticket
  | .ticket_bad_key_type => .ticket
  | .ticket_bad_key_revision => .ticket
  | .certificate_not_found => .certificate
  | .database_corrupt_header => .database
  | .database_corrupt_infos => .database

/-- The enumerator of the header that reports a spec-side error kind. -/
def SpecKind.code : SpecKind → ResultName
  | .container_not_found => Result_ContainerNotFound
  | .container_cancelled => Result_Cancelled
  | .archive_not_found => Result_NcaNotFound
  | .archive_bad_read_size => Result_InvalidNcaReadSize
  | .archive_bad_signature_key_generation => Result_InvalidNcaSigKeyGen
  | .archive_bad_magic => Result_InvalidNcaMagic
  | .archive_signature0_mismatch => Result_InvalidNcaSignature0
  | .archive_signature1_mismatch => Result_InvalidNcaSignature1
  | .archive_hash_mismatch => Result_InvalidNcaSha256
  | .block_section_not_found => Result_NczSectionNotFound
  | .block_not_found => Result_NczBlockNotFound
  | .block_bad_version => Result_InvalidNczBlockVersion
  | .block_bad_type => Result_InvalidNczBlockType
  | .block_bad_total => Result_InvalidNczBlockTotal
  | .block_bad_exponent => Result_InvalidNczBlockSizeExponent
  | .block_decompression_failure => Result_InvalidNczZstdError
  | .ticket_not_found => Result_TicketNotFound
  | .ticket_rights_id_mismatch => Result_InvalidTicketBadRightsId
  | .ticket_bad_version => Result_InvalidTicketVersion
  | .ticket_bad_key_type => Result_InvalidTicketKeyType
  | .ticket_bad_key_revision => Result_InvalidTicketKeyRevision
  | .certificate_not_found => Result_CertNotFound
  | .database_corrupt_header => Result_NcmDbCorruptHeader
  | .database_corrupt_infos => Result_NcmDbCorruptInfos

/-- Number of error kinds the specification enumerates under a concern. -/
def specCount (g : Group) : Nat :=
  (Finset.univ.filter (fun k : SpecKind => k.group = g)).card

/-! ## Config and ConfigOverride -/

/-- Install settings (`struct Config`): sixteen `bool` members, each value-initialised
(`{}`), that is, false. -/
structure Config where
  sd_card_install : Bool := false
  allow_downgrade : Bool := false
  skip_if_already_installed : Bool := false
  ticket_only : Bool := false
  skip_base : Bool := false
  skip_patch : Bool := false
  skip_addon : Bool := false
  skip_data_patch : Bool := false
  skip_ticket : Bool := false
  skip_nca_hash_verify : Bool := false
  skip_rsa_header_fixed_key_verify : Bool := false
  skip_rsa_npdm_fixed_key_verify : Bool := false
  ignore_distribution_bit : Bool := false
  convert_to_standard_crypto : Bool := false
  lower_master_key : Bool := false
  lower_system_version : Bool := false
  deriving DecidableEq, Repr

/-- Overridable options (`struct ConfigOverride`): eight `std::optional<bool>` members,
each value-initialised (`{}`), that is, empty. -/
structure ConfigOverride where
  sd_card_install : Option Bool := none
  skip_nca_hash_verify : Option Bool := none
  skip_rsa_header_fixed_key_verify : Option Bool := none
  skip_rsa_npdm_fixed_key_verify : Option Bool := none
  ignore_distribution_bit : Option Bool := none
  convert_to_standard_crypto : Option Bool := none
  lower_master_key : Option Bool := none
  lower_system_version : Option Bool := none
  deriving DecidableEq, Repr

/-- The member types that occur in the two records. -/
inductive MemberType where
  | bool
  | optional_bool
  deriving DecidableEq, Repr

/-- Member declarations of `struct Config`, name and type, in declaration order. -/
def Config.members : List (String × MemberType) :=
  [ ("sd_card_install", .bool),
    ("allow_downgrade", .bool),
    ("skip_if_already_installed", .bool),
    ("ticket_only", .bool),
    ("skip_base", .bool),
    ("skip_patch", .bool),
    ("skip_addon", .bool),
    ("skip_data_patch", .bool),
    ("skip_ticket", .bool),
    ("skip_nca_hash_verify", .bool),
    ("skip_rsa_header_fixed_key_verify", .bool),
    ("skip_rsa_npdm_fixed_key_verify", .bool),
    ("ignore_distribution_bit", .bool),
    ("convert_to_standard_crypto", .bool),
    ("lower_master_key", .bool),
    ("lower_system_version", .bool) ]

/-- Member declarations of `struct ConfigOverride`, name and type, in declaration order. -/
def ConfigOverride.members : List (String × MemberType) :=
  [ ("sd_card_install", .optional_bool),
    ("skip_nca_hash_verify", .optional_bool),
    ("skip_rsa_header_fixed_key_verify", .optional_bool),
    ("skip_rsa_npdm_fixed_key_verify", .optional_bool),
    ("ignore_distribution_bit", .optional_bool),
    ("convert_to_standard_crypto", .optional_bool),
    ("lower_master_key", .optional_bool),
    ("lower_system_version", .optional_bool) ]

/-- Modelled from the spec: policy resolution, which the header declares no function for
(the four entry points take a `ConfigOverride` and resolve it in the implementation file).
For each Config field the corresponding optional value of ConfigOverride wins if present,
else the value of Config is used; a field with no corresponding override keeps the value
of Config. -/
def resolve (c : Config) (o : ConfigOverride) : Config :=
  { sd_card_install := o.sd_card_install.getD c.sd_card_install
    allow_downgrade := c.allow_downgrade
    skip_if_already_installed := c.skip_if_already_installed
    ticket_only := c.ticket_only
    skip_base := c.skip_base
    skip_patch := c.skip_patch
    skip_addon := c.skip_addon
    skip_data_patch := c.skip_data_patch
    skip_ticket := c.skip_ticket
    skip_nca_hash_verify := o.skip_nca_hash_verify.getD c.skip_nca_hash_verify
    skip_rsa_header_fixed_key_verify :=
      o.skip_rsa_header_fixed_key_verify.getD c.skip_rsa_header_fixed_key_verify
    skip_rsa_npdm_fixed_key_verify :=
      o.skip_rsa_npdm_fixed_key_verify.getD c.skip_rsa_npdm_fixed_key_verify
    ignore_distribution_bit := o.ignore_distribution_bit.getD c.ignore_distribution_bit
    convert_to_standard_crypto :=
      o.convert_to_standard_crypto.getD c.convert_to_standard_crypto
    lower_master_key := o.lower_master_key.getD c.lower_master_key
    lower_system_version := o.lower_system_version.getD c.lower_system_version }

/-! ## Block-table validation and block decompression -/

/-- Modelled from the spec: the CompressedBlockTable of the data model, whose layout the
header does not declare: format version, block type, block count, block-size exponent and
the compressed size of each block. -/
structure CompressedBlockTable where
  version : Nat
  block_type : Nat
  block_count : Nat
  block_size_exponent : Nat
  block_sizes : List Nat
  deriving DecidableEq, Repr

/-- Modelled from the spec: block-table validation of the BlockDecompressor, which lives in
the implementation file. The four structural checks are made in the order the header
declares their codes, with the bounds its comments give: block version != 2, block
type != 1, block count == 0, block size exponent < 14 || > 32. -/
def validateBlockTable (t : CompressedBlockTable) : Except ResultName Unit :=
  if t.version ≠ 2 then .error Result_InvalidNczBlockVersion
  else if t.block_type ≠ 1 then .error Result_InvalidNczBlockType
  else if t.block_count = 0 then .error Result_InvalidNczBlockTotal
  else if t.block_size_exponent < 14 ∨ t.block_size_exponent > 32 then
    .error Result_InvalidNczBlockSizeExponent
  else .ok ()

/-- What a decompression run leaves behind: the outcome code (none on success), how many
blocks were read from the source, and the bytes produced. -/
structure DecompressRun where
  error : Option ResultName
  blocks_read : Nat
  output : List Nat
  deriving DecidableEq, Repr

/-- Modelled from the spec: the block loop of the BlockDecompressor. Blocks are read and
decoded strictly in order; `read i` is the compressed block number `i` and `codec` the
underlying decoder, and a decoder failure ends the run with the single
decompression-failure kind. -/
def decompressBlocks (read : Nat → List Nat) (codec : List Nat → Option (List Nat)) :
    List Nat → DecompressRun → DecompressRun
  | [], run => run
  | i :: rest, run =>
    match codec (read i) with
    | none =>
      { error := some Result_InvalidNczZstdError
        blocks_read := run.blocks_read + 1
        output := run.output }
    | some bytes =>
      decompressBlocks read codec rest
        { error := none
          blocks_read := run.blocks_read + 1
          output := run.output ++ bytes }

/-- Modelled from the spec: decompression of one compressed section. The block table is
validated once, before any data is touched; a violation fails fast with its own code and
no block is read. -/
def decompressSection (read : Nat → List Nat) (codec : List Nat → Option (List Nat))
    (t : CompressedBlockTable) : DecompressRun :=
  match validateBlockTable t with
  | .error e => { error := some e, blocks_read := 0, output := [] }
  | .ok _ =>
    decompressBlocks read codec (List.range t.block_count)
      { error := none, blocks_read := 0, output := [] }

/-! ## Crypto conversion -/

/-- The content types the install switches of Config tell apart (skip_base, skip_patch,
skip_addon, skip_data_patch). -/
inductive ContentType where
  | base
  | patch
  | addon
  | data_patch
  deriving DecidableEq, Repr

/-- Modelled from the spec: the part of a ContentArchive header that crypto resolution
reads and rewrites: the content type of the title it belongs to, the key-generation index
and the rights ID, which is present exactly when the archive uses title-key crypto. -/
structure ContentArchive where
  content_type : ContentType
  key_generation : Nat
  rights_id : Option Nat
  deriving DecidableEq, Repr

/-- An archive needs a ticket at read time exactly when it carries a rights ID. -/
def ContentArchive.requires_ticket (a : ContentArchive) : Bool :=
  a.rights_id.isSome

/-- Modelled from the spec: the conversion step of the CryptoKeyResolver, which lives in
the implementation file. If `convert_to_standard_crypto` or `lower_master_key` is set, the
key area is re-encrypted under a target key generation (generation 0 when lowering) and
the installed copy no longer carries a rights ID; the conversion does not apply to
add-on-content archives, which keep their ticket. -/
def convertCrypto (e : Config) (a : ContentArchive) : ContentArchive :=
  if (e.convert_to_standard_crypto || e.lower_master_key) && a.content_type != .addon then
    { content_type := a.content_type
      key_generation := if e.lower_master_key then 0 else a.key_generation
      rights_id := none }
  else a

/-! ## Theorems: result codes -/

/-- The list of declared enumerators is complete and free of repetition. -/
theorem declared_complete : (∀ r : ResultName, r ∈ declared) ∧ declared.Nodup := by
  constructor
  · intro r
    cases r <;> decide
  · decide

/-- C1 (as stated, refuted): the header does not declare 24 pairwise distinct codes; it
declares 25 enumerators, so the count of 24 fails whatever their values are. -/
theorem result_codes_not_24 :
    ¬ (declared.length = 24 ∧ ∀ a b : ResultName, a ≠ b → a.value ≠ b.value) := by
  decide

/-- C1 (amended): the header declares 25 enumerators, every one of them listed in
`declared`, and any two different enumerators have different numeric codes. -/
theorem result_codes_pairwise_distinct :
    declared.length = 25 ∧ (∀ r : ResultName, r ∈ declared) ∧
      ∀ a b : ResultName, a ≠ b → a.value ≠ b.value := by
  refine ⟨by decide, declared_complete.1, ?_⟩
  decide

/-- Witness for C1: the first two enumerators are different and so are their codes. -/
theorem result_codes_pairwise_distinct_witness :
    Result_ContainerNotFound ≠ Result_Cancelled ∧
      Result_ContainerNotFound.value ≠ Result_Cancelled.value :=
  ⟨by decide, result_codes_pairwise_distinct.2.2 _ _ (by decide)⟩

/-- C2 (as stated, refuted): the declared codes are not in one-to-one correspondence with
the kinds the specification enumerates. The compressed-block group of the header has 8
enumerators against 7 enumerated kinds, the header has 25 enumerators against 24, and
`Result_InvalidNczSectionCount` reports no enumerated kind. -/
theorem declared_codes_not_the_enumerated_kinds :
    ¬ ((∀ g : Group, (codesOf g).length = specCount g) ∧ declared.length = 24 ∧
        ∀ r : ResultName, ∃ k : SpecKind, k.code = r) := by
  decide

/-- C2 (amended): group by group the header declares 2 container, 7 archive-structural,
8 compressed-block, 5 ticket, 1 certificate and 2 title-database codes, 25 in all; the
specification enumerates 2, 7, 7, 5, 1 and 2 kinds; every enumerated kind is reported by
one code of its own group, different kinds by different codes; and the only declared code
that reports no enumerated kind is `Result_InvalidNczSectionCount` (section count zero). -/
theorem declared_codes_vs_enumerated_kinds :
    ((codesOf .container).length = 2 ∧ (codesOf .archive).length = 7 ∧
      (codesOf .compressed).length = 8 ∧ (codesOf .ticket).length = 5 ∧
      (codesOf .certificate).length = 1 ∧ (codesOf .database).length = 2) ∧
    declared.length = 25 ∧
    (specCount .container = 2 ∧ specCount .archive = 7 ∧ specCount .compressed = 7 ∧
      specCount .ticket = 5 ∧ specCount .certificate = 1 ∧ specCount .database = 2) ∧
    (∀ k : SpecKind, k.code.group = k.group) ∧
    (∀ a b : SpecKind, a ≠ b → a.code ≠ b.code) ∧
    (∀ r : ResultName, (∃ k : SpecKind, k.code = r) ↔ r ≠ Result_InvalidNczSectionCount) := by
  refine ⟨by decide, by decide, by decide, by decide, by decide, by decide⟩

/-- Witness for C2: the two block-not-found kinds of the specification are different and
are reported by different codes. -/
theorem declared_codes_vs_enumerated_kinds_witness :
    SpecKind.block_section_not_found ≠ SpecKind.block_not_found ∧
      SpecKind.block_section_not_found.code ≠ SpecKind.block_not_found.code :=
  ⟨by decide, declared_codes_vs_enumerated_kinds.2.2.2.2.1 _ _ (by decide)⟩

/-- C8: the numbering keeps the six groups apart. For every enumerator the group is the
one whose position is `(d - 10) / 20`, with `d` inside the band `[base, base + 20)` of
that group; within each group the description numbers are consecutive from the base of
the group (10, 30, 50, 70, 90, 110); and an enumerator of one group never has its
description number in the band of another group. -/
theorem groups_are_numeric_bands :
    (∀ r : ResultName, 10 ≤ r.description ∧ r.group.index = (r.description - 10) / 20 ∧
        r.group.base ≤ r.description ∧ r.description < r.group.base + 20) ∧
    (∀ g : Group, (codesOf g).map ResultName.description
        = List.range' g.base (codesOf g).length) ∧
    (Group.container.base = 10 ∧ Group.archive.base = 30 ∧ Group.compressed.base = 50 ∧
      Group.ticket.base = 70 ∧ Group.certificate.base = 90 ∧ Group.database.base = 110) ∧
    (∀ r : ResultName, ∀ g : Group, r.group ≠ g →
        r.description < g.base ∨ g.base + 20 ≤ r.description) ∧
    (∀ g h : Group, g ≠ h → g.base + 20 ≤ h.base ∨ h.base + 20 ≤ g.base) := by
  refine ⟨by decide, by decide, by decide, by decide, by decide⟩

/-- Witness for C8: `Result_CertNotFound` (90) lies outside the ticket band `[70, 90)`,
and the container and archive bands do not overlap. -/
theorem groups_are_numeric_bands_witness :
    (Result_CertNotFound.group ≠ Group.ticket ∧
      (Result_CertNotFound.description < Group.ticket.base ∨
        Group.ticket.base + 20 ≤ Result_CertNotFound.description)) ∧
    (Group.container ≠ Group.archive ∧
      (Group.container.base + 20 ≤ Group.archive.base ∨
        Group.archive.base + 20 ≤ Group.container.base)) :=
  ⟨⟨by decide, groups_are_numeric_bands.2.2.2.1 _ _ (by decide)⟩,
   ⟨by decide, groups_are_numeric_bands.2.2.2.2 _ _ (by decide)⟩⟩

/-- C9: every declared code is a well-formed failure code of module 506. The code is not
the success code 0, its low 9 bits give back the module 506, bits 9 to 21 give back the
description number, and the code fits in 32 bits; nothing is truncated because
506 < 512 and every description number is below 8192. -/
theorem declared_codes_well_formed :
    YatiModule = 506 ∧ YatiModule < 512 ∧
    ∀ r : ResultName,
      r.value = (506 &&& 0x1FF) ||| ((r.description &&& 0x1FFF) <<< 9) ∧
      r.value ≠ 0 ∧
      r.value &&& 0x1FF = 506 ∧
      (r.value >>> 9) &&& 0x1FFF = r.description ∧
      r.description < 8192 ∧
      r.value < 2 ^ 32 := by
  refine ⟨rfl, by decide, ?_⟩
  decide

/-! ## Theorems: Config and ConfigOverride -/

/-- C3 (as stated, refuted): ConfigOverride does not hold every field of Config. Config
declares `allow_downgrade`; ConfigOverride declares no member of that name. -/
theorem override_lacks_config_fields :
    ¬ ((∀ m ∈ Config.members, (m.1, MemberType.optional_bool) ∈ ConfigOverride.members) ∧
        ∀ m ∈ ConfigOverride.members, m.1 ∈ Config.members.map Prod.fst) := by
  intro h
  exact absurd (h.1 ("allow_downgrade", .bool) (by decide)) (by decide)

/-- C3 (amended): ConfigOverride holds eight of the sixteen fields of Config. Each member
of ConfigOverride is an optional bool named like a bool member of Config; the members of
Config with an override are exactly sd_card_install, skip_nca_hash_verify,
skip_rsa_header_fixed_key_verify, skip_rsa_npdm_fixed_key_verify,
ignore_distribution_bit, convert_to_standard_crypto, lower_master_key and
lower_system_version; the eight others have none. -/
theorem override_fields_subset_of_config :
    Config.members.length = 16 ∧ ConfigOverride.members.length = 8 ∧
    (Config.members.map Prod.fst).Nodup ∧ (ConfigOverride.members.map Prod.fst).Nodup ∧
    (∀ m ∈ Config.members, m.2 = MemberType.bool) ∧
    (∀ m ∈ ConfigOverride.members,
        m.2 = MemberType.optional_bool ∧ (m.1, MemberType.bool) ∈ Config.members) ∧
    (Config.members.map Prod.fst).filter
        (fun n => decide (n ∈ ConfigOverride.members.map Prod.fst))
      = [ "sd_card_install", "skip_nca_hash_verify", "skip_rsa_header_fixed_key_verify",
          "skip_rsa_npdm_fixed_key_verify", "ignore_distribution_bit",
          "convert_to_standard_crypto", "lower_master_key", "lower_system_version" ] ∧
    (Config.members.map Prod.fst).filter
        (fun n => decide (n ∉ ConfigOverride.members.map Prod.fst))
      = [ "allow_downgrade", "skip_if_already_installed", "ticket_only", "skip_base",
          "skip_patch", "skip_addon", "skip_data_patch", "skip_ticket" ] := by
  refine ⟨by decide, by decide, by decide, by decide, by decide, by decide,
    by decide, by decide⟩

/-- Witness for C3: the member `lower_master_key` of ConfigOverride is an optional bool
and Config has a bool member of the same name. -/
theorem override_fields_subset_of_config_witness :
    ("lower_master_key", MemberType.optional_bool) ∈ ConfigOverride.members ∧
      ("lower_master_key", MemberType.bool) ∈ Config.members :=
  ⟨by decide,
   (override_fields_subset_of_config.2.2.2.2.2.1
      ("lower_master_key", MemberType.optional_bool) (by decide)).2⟩

/-- C4: policy resolution is field by field, override wins if present, else base. For
each of the eight fields ConfigOverride declares, the effective policy has the value of
the override when one is present and the value of Config when it is absent; each of the
eight other fields of Config keeps the value of Config whatever the override is. -/
theorem resolve_fieldwise (c : Config) (o : ConfigOverride) :
    (∀ v : Bool, o.sd_card_install = some v → (resolve c o).sd_card_install = v) ∧
    (o.sd_card_install = none → (resolve c o).sd_card_install = c.sd_card_install) ∧
    (∀ v : Bool, o.skip_nca_hash_verify = some v → (resolve c o).skip_nca_hash_verify = v) ∧
    (o.skip_nca_hash_verify = none → (resolve c o).skip_nca_hash_verify = c.skip_nca_hash_verify) ∧
    (∀ v : Bool, o.skip_rsa_header_fixed_key_verify = some v → (resolve c o).skip_rsa_header_fixed_key_verify = v) ∧
    (o.skip_rsa_header_fixed_key_verify = none → (resolve c o).skip_rsa_header_fixed_key_verify = c.skip_rsa_header_fixed_key_verify) ∧
    (∀ v : Bool, o.skip_rsa_npdm_fixed_key_verify = some v → (resolve c o).skip_rsa_npdm_fixed_key_verify = v) ∧
    (o.skip_rsa_npdm_fixed_key_verify = none → (resolve c o).skip_rsa_npdm_fixed_key_verify = c.skip_rsa_npdm_fixed_key_verify) ∧
    (∀ v : Bool, o.ignore_distribution_bit = some v → (resolve c o).ignore_distribution_bit = v) ∧
    (o.ignore_distribution_bit = none → (resolve c o).ignore_distribution_bit = c.ignore_distribution_bit) ∧
    (∀ v : Bool, o.convert_to_standard_crypto = some v → (resolve c o).convert_to_standard_crypto = v) ∧
    (o.convert_to_standard_crypto = none → (resolve c o).convert_to_standard_crypto = c.convert_to_standard_crypto) ∧
    (∀ v : Bool, o.lower_master_key = some v → (resolve c o).lower_master_key = v) ∧
    (o.lower_master_key = none → (resolve c o).lower_master_key = c.lower_master_key) ∧
    (∀ v : Bool, o.lower_system_version = some v → (resolve c o).lower_system_version = v) ∧
    (o.lower_system_version = none → (resolve c o).lower_system_version = c.lower_system_version) ∧
    (resolve c o).allow_downgrade = c.allow_downgrade ∧
    (resolve c o).skip_if_already_installed = c.skip_if_already_installed ∧
    (resolve c o).ticket_only = c.ticket_only ∧
    (resolve c o).skip_base = c.skip_base ∧
    (resolve c o).skip_patch = c.skip_patch ∧
    (resolve c o).skip_addon = c.skip_addon ∧
    (resolve c o).skip_data_patch = c.skip_data_patch ∧
    (resolve c o).skip_ticket = c.skip_ticket :=
  ⟨fun v h => by simp [resolve, h],
   fun h => by simp [resolve, h],
   fun v h => by simp [resolve, h],
   fun h => by simp [resolve, h],
   fun v h => by simp [resolve, h],
   fun h => by simp [resolve, h],
   fun v h => by simp [resolve, h],
   fun h => by simp [resolve, h],
   fun v h => by simp [resolve, h],
   fun h => by simp [resolve, h],
   fun v h => by simp [resolve, h],
   fun h => by simp [resolve, h],
   fun v h => by simp [resolve, h],
   fun h => by simp [resolve, h],
   fun v h => by simp [resolve, h],
   fun h => by simp [resolve, h],
   rfl,
   rfl,
   rfl,
   rfl,
   rfl,
   rfl,
   rfl,
   rfl⟩

/-- Witness for C4: a present override of `lower_master_key` wins over the base value. -/
theorem resolve_fieldwise_witness :
    (resolve ({ lower_master_key := false } : Config)
        ({ lower_master_key := some true } : ConfigOverride)).lower_master_key = true :=
  (resolve_fieldwise { lower_master_key := false } { lower_master_key := some true }
    ).2.2.2.2.2.2.2.2.2.2.2.2.1 true rfl

/-- C10: the default override overrides nothing. A value-initialised ConfigOverride has
all eight fields absent, a value-initialised Config has all sixteen switches false, and
resolving any Config against the default override gives that Config back. -/
theorem default_override_is_identity :
    (({} : ConfigOverride).sd_card_install = none ∧
      ({} : ConfigOverride).skip_nca_hash_verify = none ∧
      ({} : ConfigOverride).skip_rsa_header_fixed_key_verify = none ∧
      ({} : ConfigOverride).skip_rsa_npdm_fixed_key_verify = none ∧
      ({} : ConfigOverride).ignore_distribution_bit = none ∧
      ({} : ConfigOverride).convert_to_standard_crypto = none ∧
      ({} : ConfigOverride).lower_master_key = none ∧
      ({} : ConfigOverride).lower_system_version = none) ∧
    (({} : Config) = ⟨false, false, false, false, false, false, false, false,
        false, false, false, false, false, false, false, false⟩) ∧
    (∀ c : Config, resolve c {} = c) :=
  ⟨⟨rfl, rfl, rfl, rfl, rfl, rfl, rfl, rfl⟩, rfl, fun _ => rfl⟩

/-! ## Theorems: block tables -/

/-- C5: block-table validation accepts a table if and only if version = 2, type = 1,
block count > 0 and 14 <= exponent <= 32; with the other three fields valid, exponents 13
and 33 are rejected with `Result_InvalidNczBlockSizeExponent` and exponents 14 and 32 are
accepted. -/
theorem validateBlockTable_accepts_iff (t : CompressedBlockTable) :
    (validateBlockTable t = .ok () ↔
      t.version = 2 ∧ t.block_type = 1 ∧ 0 < t.block_count ∧
        14 ≤ t.block_size_exponent ∧ t.block_size_exponent ≤ 32) ∧
    (t.version = 2 → t.block_type = 1 → 0 < t.block_count →
      (t.block_size_exponent = 13 ∨ t.block_size_exponent = 33 →
        validateBlockTable t = .error Result_InvalidNczBlockSizeExponent) ∧
      (t.block_size_exponent = 14 ∨ t.block_size_exponent = 32 →
        validateBlockTable t = .ok ())) := by
  unfold validateBlockTable
  refine ⟨?_, ?_⟩
  · split_ifs <;> simp_all <;> omega
  · intro hv ht hc
    have hc0 : t.block_count ≠ 0 := by omega
    refine ⟨?_, ?_⟩ <;> intro he <;> simp [hv, ht, hc0] <;> omega

/-- Witness for C5: four tables with version 2, type 1 and one block; exponent 13 and 33
are rejected with the exponent code, 14 and 32 are accepted. -/
theorem validateBlockTable_accepts_iff_witness :
    validateBlockTable ⟨2, 1, 1, 13, [5]⟩ = .error Result_InvalidNczBlockSizeExponent ∧
    validateBlockTable ⟨2, 1, 1, 33, [5]⟩ = .error Result_InvalidNczBlockSizeExponent ∧
    validateBlockTable ⟨2, 1, 1, 14, [5]⟩ = .ok () ∧
    validateBlockTable ⟨2, 1, 1, 32, [5]⟩ = .ok () :=
  ⟨((validateBlockTable_accepts_iff ⟨2, 1, 1, 13, [5]⟩).2 rfl rfl (by decide)).1 (Or.inl rfl),
   ((validateBlockTable_accepts_iff ⟨2, 1, 1, 33, [5]⟩).2 rfl rfl (by decide)).1 (Or.inr rfl),
   ((validateBlockTable_accepts_iff ⟨2, 1, 1, 14, [5]⟩).2 rfl rfl (by decide)).2 (Or.inl rfl),
   ((validateBlockTable_accepts_iff ⟨2, 1, 1, 32, [5]⟩).2 rfl rfl (by decide)).2 (Or.inr rfl)⟩

/-- C6: each structural violation of a block table has its own error kind. A table that
violates exactly one of the four conditions fails with the version code when
version != 2, the type code when type != 1, the total code when the block count is 0 and
the exponent code when the exponent is < 14 or > 32; the numeric values of these four
codes and of `Result_InvalidNczZstdError` are pairwise different; and whenever validation
fails, decompression reports that code with no block read and no byte produced. -/
theorem block_table_violation_codes (read : Nat → List Nat)
    (codec : List Nat → Option (List Nat)) (t : CompressedBlockTable) :
    (t.version ≠ 2 → t.block_type = 1 → 0 < t.block_count →
      14 ≤ t.block_size_exponent → t.block_size_exponent ≤ 32 →
        validateBlockTable t = .error Result_InvalidNczBlockVersion) ∧
    (t.version = 2 → t.block_type ≠ 1 → 0 < t.block_count →
      14 ≤ t.block_size_exponent → t.block_size_exponent ≤ 32 →
        validateBlockTable t = .error Result_InvalidNczBlockType) ∧
    (t.version = 2 → t.block_type = 1 → t.block_count = 0 →
      14 ≤ t.block_size_exponent → t.block_size_exponent ≤ 32 →
        validateBlockTable t = .error Result_InvalidNczBlockTotal) ∧
    (t.version = 2 → t.block_type = 1 → 0 < t.block_count →
      (t.block_size_exponent < 14 ∨ 32 < t.block_size_exponent) →
        validateBlockTable t = .error Result_InvalidNczBlockSizeExponent) ∧
    ([Result_InvalidNczBlockVersion, Result_InvalidNczBlockType,
        Result_InvalidNczBlockTotal, Result_InvalidNczBlockSizeExponent,
        Result_InvalidNczZstdError].map ResultName.value).Nodup ∧
    (∀ e : ResultName, validateBlockTable t = .error e →
      decompressSection read codec t = { error := some e, blocks_read := 0, output := [] }) := by
  refine ⟨?_, ?_, ?_, ?_, by decide, ?_⟩
  · intro hv _ _ _ _
    simp [validateBlockTable, hv]
  · intro hv ht _ _ _
    simp [validateBlockTable, hv, ht]
  · intro hv ht hc _ _
    simp [validateBlockTable, hv, ht, hc]
  · intro hv ht hc he
    have hc0 : t.block_count ≠ 0 := by omega
    simp [validateBlockTable, hv, ht, hc0]
    omega
  · intro e he
    simp [decompressSection, he]

/-- Witness for C6: a table of version 3 (type 1, two blocks, exponent 20) fails with the
block-version code, and decompressing it reads no block and produces no byte, here with a
source and a decoder that would otherwise yield data. -/
theorem block_table_violation_codes_witness :
    validateBlockTable ⟨3, 1, 2, 20, [4, 4]⟩ = .error Result_InvalidNczBlockVersion ∧
    decompressSection (fun i => [i]) (fun b => some b) ⟨3, 1, 2, 20, [4, 4]⟩
      = { error := some Result_InvalidNczBlockVersion, blocks_read := 0, output := [] } :=
  ⟨(block_table_violation_codes (fun i => [i]) (fun b => some b) ⟨3, 1, 2, 20, [4, 4]⟩).1
      (by decide) rfl (by decide) (by decide) (by decide),
   (block_table_violation_codes (fun i => [i]) (fun b => some b)
      ⟨3, 1, 2, 20, [4, 4]⟩).2.2.2.2.2 Result_InvalidNczBlockVersion rfl⟩

/-- On a valid table the run does read: with a decoder that always succeeds every block
is read, in order, and on a decoder failure the run stops with the decompression-failure
code. -/
theorem decompressSection_valid_runs :
    decompressSection (fun i => [i]) (fun b => some b) ⟨2, 1, 3, 14, [1, 1, 1]⟩
      = { error := none, blocks_read := 3, output := [0, 1, 2] } ∧
    decompressSection (fun i => [i]) (fun b => if b = [1] then none else some b)
        ⟨2, 1, 3, 32, [1, 1, 1]⟩
      = { error := some Result_InvalidNczZstdError, blocks_read := 2, output := [0] } := by
  constructor <;> decide

/-! ## Theorems: crypto conversion -/

/-- C7: conversion of a title-key archive to standard crypto is decided by the effective
policy and the content type only. For an archive that carries a rights ID, the installed
archive requires no ticket if and only if `convert_to_standard_crypto` or
`lower_master_key` is set and the archive is not add-on content; `lower_master_key` alone
gives standard crypto with key generation 0; and an add-on-content archive keeps its
ticket requirement (and is left as it was) whatever the two flags are. -/
theorem convertCrypto_ticketless_iff (e : Config) (a : ContentArchive)
    (h : a.requires_ticket = true) :
    ((convertCrypto e a).requires_ticket = false ↔
      (e.convert_to_standard_crypto = true ∨ e.lower_master_key = true) ∧
        a.content_type ≠ ContentType.addon) ∧
    (e.lower_master_key = true → e.convert_to_standard_crypto = false →
      a.content_type ≠ ContentType.addon →
        (convertCrypto e a).requires_ticket = false ∧
          (convertCrypto e a).key_generation = 0) ∧
    (a.content_type = ContentType.addon →
      (convertCrypto e a).requires_ticket = true ∧ convertCrypto e a = a) := by
  refine ⟨?_, ?_, ?_⟩
  · rcases a with ⟨ct, kg, rid⟩
    cases ct <;> cases hx : e.convert_to_standard_crypto <;>
      cases hy : e.lower_master_key <;>
      simp_all [convertCrypto, ContentArchive.requires_ticket]
  · intro hl _ ht
    simp [convertCrypto, hl, ht, ContentArchive.requires_ticket]
  · intro ht
    simp [convertCrypto, ht, h]

/-- Witness for C7: with only `lower_master_key` set, a base-game archive of key
generation 5 with a rights ID is installed ticketless at key generation 0. -/
theorem convertCrypto_ticketless_iff_witness :
    (convertCrypto { lower_master_key := true } ⟨.base, 5, some 1⟩).requires_ticket = false ∧
    (convertCrypto { lower_master_key := true } ⟨.base, 5, some 1⟩).key_generation = 0 :=
  (convertCrypto_ticketless_iff { lower_master_key := true } ⟨.base, 5, some 1⟩ rfl).2.1
    rfl rfl (by decide)

end sphaira.yati
